import Mathlib

/-!
Shallow embedding of the mass-spectrometry processing service
(`supabase/functions/ms-processing/python_service.py`): the data model,
peak detection, cross-sample alignment, the statistics stage and the
step dispatcher, together with theorems settling the specification
claims.  Machine floats of the source are modelled as exact rationals;
the transcendental and statistical routines imported from numpy/scipy
(`sqrt`, `log2`, `ttest_ind`, `mannwhitneyu`) are opaque parameters
collected in a `NumLib` record.
-/

namespace MsProc

/-! ### Numeric helpers (numpy surrogates over `ℚ`) -/

/-- Stable insertion of `x` into a list already sorted by `key`
(placed before the first element whose key is not smaller). -/
def insertByKey {α : Type} (key : α → ℚ) (x : α) : List α → List α
  | [] => [x]
  | y :: ys => if key x ≤ key y then x :: y :: ys else y :: insertByKey key x ys

/-- Stable sort by a rational key; models Python `list.sort(key=...)` and
OpenMS `sortByPosition` (tie order is irrelevant to every claim). -/
def sortByKey {α : Type} (key : α → ℚ) : List α → List α
  | [] => []
  | x :: xs => insertByKey key x (sortByKey key xs)

/-- `np.mean`; the source only applies it to nonempty lists (we return `0`
on `[]`, where numpy would produce NaN — never reached in guarded uses). -/
def npMean (l : List ℚ) : ℚ := l.sum / (l.length : ℚ)

/-- `np.median`: middle element of the sorted list, or the average of the
two middle elements for even length. -/
def npMedian (l : List ℚ) : ℚ :=
  let s := sortByKey (fun x => x) l
  let n := s.length
  if n = 0 then 0
  else if n % 2 = 1 then s.getD (n / 2) 0
  else (s.getD (n / 2 - 1) 0 + s.getD (n / 2) 0) / 2

/-- `np.percentile(l, 25)` with numpy's default linear interpolation:
position `(n-1)/4` between the order statistics. -/
def npPercentile25 (l : List ℚ) : ℚ :=
  let s := sortByKey (fun x => x) l
  let n := s.length
  if n = 0 then 0
  else
    let lo := (n - 1) / 4
    let frac : ℚ := (((n : ℚ) - 1) / 4) - (lo : ℚ)
    s.getD lo 0 + frac * (s.getD (lo + 1) (s.getD lo 0) - s.getD lo 0)

/-- `np.var` (population variance). -/
def npVar (l : List ℚ) : ℚ :=
  npMean (l.map (fun x => (x - npMean l) * (x - npMean l)))

/-- Rounding used to model Python's `f"{x:.4f}"` id formatting: the integer
of kept decimal digits.  (Python rounds half to even; the exact tie rule is
irrelevant — the source tolerates id collisions.) -/
def round4 (q : ℚ) : ℤ := ⌊q * 10000 + 1 / 2⌋

/-- External numpy/scipy/statsmodels routines called by the service, kept
opaque: `(t statistic, p value)` for `scipy.stats.ttest_ind`,
`(U statistic, p value)` for `scipy.stats.mannwhitneyu`, `np.log2` and
`np.sqrt`. -/
structure NumLib where
  ttest_ind : List ℚ → List ℚ → ℚ × ℚ
  mannwhitneyu : List ℚ → List ℚ → ℚ × ℚ
  log2 : ℚ → ℚ
  sqrt : ℚ → ℚ

/-! ### Data model -/

/-- A raw `(m/z, intensity)` pair of a spectrum. -/
structure RawPeak where
  mz : ℚ
  intensity : ℚ
deriving DecidableEq

/-- One spectrum of a sample (`spectrum_data` dict of the source). -/
structure Spectrum where
  retentionTime : ℚ
  msLevel : ℕ
  scanNumber : ℕ
  peaks : List RawPeak
deriving DecidableEq

/-- A detected peak as emitted by the peak-detection stage (lines 162-170 /
193-201 of `python_service.py`). -/
structure Peak where
  mz : ℚ
  intensity : ℚ
  retentionTime : ℚ
  scanNumber : ℕ
  msLevel : ℕ
  snr : ℚ
  noiseLevel : ℚ
deriving DecidableEq

/-- Feature id strings: `f"feature_{len}_{mz:.4f}"` generated by
`_create_aligned_feature`, and the fallback key `f"mz_{mz:.4f}"` used by
the statistics stage for peaks without a feature id. -/
inductive FeatureKey where
  | featureTag (size : ℕ) (mz4 : ℤ)
  | mzTag (mz4 : ℤ)
deriving DecidableEq

/-- A detected peak copied and tagged with its sample during alignment
pooling (lines 233-238), optionally stamped with a feature id. -/
structure TaggedPeak where
  peak : Peak
  sampleIndex : ℕ
  sampleName : String
  featureId : Option FeatureKey
deriving DecidableEq

/-- An aligned consensus feature (`_create_aligned_feature`). -/
structure AlignedFeature where
  id : FeatureKey
  mz : ℚ
  rt : ℚ
  intensity_mean : ℚ
  intensity_std : ℚ
  cv : ℚ
  sample_count : ℕ
  peaks : List TaggedPeak
deriving DecidableEq

/-- One per-feature statistics record.  The four correction fields are
written by the multiple-testing correction pass; they are initialised to
`0`/`false` at creation (in Python those dict keys simply do not exist
yet), which is observationally equivalent because the correction pass runs
whenever the result list is nonempty. -/
structure StatisticalResult where
  featureId : FeatureKey
  mz : ℚ
  rt : ℚ
  pValue : ℚ
  tStatistic : ℚ
  mannWhitneyP : ℚ
  mannWhitneyU : ℚ
  foldChange : ℚ
  log2FoldChange : ℚ
  cohensD : ℚ
  significant : Bool
  group1Mean : ℚ
  group2Mean : ℚ
  group1Std : ℚ
  group2Std : ℚ
  pValueFDR : ℚ
  pValueBonferroni : ℚ
  significantFDR : Bool
  significantBonferroni : Bool
deriving DecidableEq

/-- A placeholder compound of the identification stub; the name string
`f"Compound_mz_{mz:.4f}"` is carried as its rounded m/z. -/
structure Compound where
  nameMz4 : ℤ
  formula : String
  mass : ℚ
  matchScore : ℚ
  database : String
  confidence : String
deriving DecidableEq

/-- A sample record (the per-sample dict travelling through the pipeline). -/
structure Sample where
  fileName : String
  spectra : List Spectrum
  detectedPeaks : List Peak
  alignedPeaks : List TaggedPeak
  filteredPeaks : List Peak
  normalizedPeaks : List Peak
  identifiedCompounds : List Compound
  statisticalResults : List StatisticalResult
  processingStatus : String
deriving DecidableEq

/-- A sample with the given file name and no accumulated data. -/
def mkSample (name : String) : Sample :=
  { fileName := name, spectra := [], detectedPeaks := [], alignedPeaks := [],
    filteredPeaks := [], normalizedPeaks := [], identifiedCompounds := [],
    statisticalResults := [], processingStatus := "" }

/-- The `parameters` dict of a request; every entry optional, defaults
applied at each use site exactly as `params.get(key, default)` does. -/
structure Params where
  noise_threshold : Option ℚ
  mz_tolerance : Option ℚ
  rt_tolerance : Option ℚ
  p_value_threshold : Option ℚ
  min_intensity : Option ℚ
  cv_threshold : Option ℚ
  method : Option String
deriving DecidableEq

/-- A parameters dict with no entries. -/
def emptyParams : Params :=
  { noise_threshold := none, mz_tolerance := none, rt_tolerance := none,
    p_value_threshold := none, min_intensity := none, cv_threshold := none,
    method := none }

/-- A `/process` request body. -/
structure ProcessingRequest where
  step : String
  data : List Sample
  parameters : Params

/-- An `HTTPException(status_code, detail)`. -/
structure HTTPError where
  status : ℕ
  detail : String
deriving DecidableEq

/-- A step response; the human-readable message and summary counters of
the source are derived data and are not modelled. -/
structure StepResponse where
  data : List Sample
deriving DecidableEq

/-! ### Peak detection (`detect_peaks_advanced` and helpers) -/

/-- `_estimate_noise_pyopenms` (lines 205-224): default `100` below 10
peaks, else `max(median(positive intensities) * 0.1, 50)`.  (With no
positive intensity numpy's median of an empty array is NaN; we return the
`50` floor there — no claim touches that corner.) -/
def estimate_noise_pyopenms (intensities : List ℚ) : ℚ :=
  if intensities.length < 10 then 100
  else max (npMedian (intensities.filter (fun x => 0 < x)) * (1 / 10)) 50

/-- Noise floor of the PyOpenMS path for a spectrum: the estimator applied
to the m/z-sorted spectrum's intensities. -/
def pyopenms_noise (sd : Spectrum) : ℚ :=
  estimate_noise_pyopenms ((sortByKey (fun p => p.mz) sd.peaks).map (fun p => p.intensity))

/-- `_detect_peaks_pyopenms` (lines 137-174): sort by m/z, require more
than 10 peaks, filter by `max(noise_threshold, noise * 3)`, annotate
`snr = intensity / max(noise, 1)`. -/
def detect_peaks_pyopenms (sd : Spectrum) (params : Params) : List Peak :=
  let sorted := sortByKey (fun p => p.mz) sd.peaks
  if 10 < sorted.length then
    let noise_level := pyopenms_noise sd
    let min_intensity := max (params.noise_threshold.getD 1000) (noise_level * 3)
    (sorted.filter (fun p => min_intensity ≤ p.intensity)).map (fun p =>
      { mz := p.mz, intensity := p.intensity, retentionTime := sd.retentionTime,
        scanNumber := sd.scanNumber, msLevel := sd.msLevel,
        snr := p.intensity / max noise_level 1, noiseLevel := noise_level })
  else []

/-- Noise floor of the fallback path: 25th percentile of the intensities,
`100` when there are none (line 184). -/
def fallback_noise_level (sd : Spectrum) : ℚ :=
  if sd.peaks.map (fun p => p.intensity) = [] then 100
  else npPercentile25 (sd.peaks.map (fun p => p.intensity))

/-- `_detect_peaks_fallback` (lines 176-203): filter by
`max(noise_threshold, noise * 2)`, annotate `snr = intensity / max(noise, 1)`. -/
def detect_peaks_fallback (sd : Spectrum) (params : Params) : List Peak :=
  if sd.peaks = [] then []
  else
    let noise_level := fallback_noise_level sd
    let min_intensity := max (params.noise_threshold.getD 1000) (noise_level * 2)
    (sd.peaks.filter (fun p => min_intensity ≤ p.intensity)).map (fun p =>
      { mz := p.mz, intensity := p.intensity, retentionTime := sd.retentionTime,
        scanNumber := sd.scanNumber, msLevel := sd.msLevel,
        snr := p.intensity / max noise_level 1, noiseLevel := noise_level })

/-- `detect_peaks_advanced` (lines 97-131): run the available path over
every spectrum with a nonempty peak list, collect the results, advance the
status. -/
def detect_peaks_advanced (avail : Bool) (sample : Sample) (params : Params) : Sample :=
  let detected := List.flatten (sample.spectra.map (fun sd =>
    if sd.peaks = [] then []
    else if avail then detect_peaks_pyopenms sd params
    else detect_peaks_fallback sd params))
  { sample with detectedPeaks := detected, processingStatus := "peaks_detected" }

/-! ### Alignment (`align_peaks_advanced` and helpers) -/

/-- Pool every detected peak of every sample, tagged with sample index and
name (lines 232-238; the dict copy makes these independent records). -/
def poolPeaks (samples : List Sample) : List TaggedPeak :=
  List.flatten (samples.enum.map (fun is =>
    is.2.detectedPeaks.map (fun p =>
      { peak := p, sampleIndex := is.1, sampleName := is.2.fileName,
        featureId := none })))

/-- `_create_aligned_feature` (lines 312-324). -/
def create_aligned_feature (lib : NumLib) (peaks : List TaggedPeak) : AlignedFeature :=
  let intensities := peaks.map (fun p => p.peak.intensity)
  let m := npMean intensities
  let sd := lib.sqrt (npVar intensities)
  { id := FeatureKey.featureTag peaks.length
      (round4 ((peaks.head?.map (fun p => p.peak.mz)).getD 0)),
    mz := npMean (peaks.map (fun p => p.peak.mz)),
    rt := npMean (peaks.map (fun p => p.peak.retentionTime)),
    intensity_mean := m,
    intensity_std := sd,
    cv := if 0 < m then sd / m else 0,
    sample_count := (peaks.map (fun p => p.sampleName)).dedup.length,
    peaks := peaks }

/-- The greedy grouping loop of `_align_peaks_fallback` (lines 287-310):
compare each next peak against the running means of the current group;
close a group when out of tolerance, keeping it only with at least two
member peaks. -/
def align_group_loop (lib : NumLib) (mzTol rtTol : ℚ) :
    List TaggedPeak → List TaggedPeak → List AlignedFeature
  | [], current =>
    if 2 ≤ current.length then [create_aligned_feature lib current] else []
  | p :: rest, current =>
    let group_mz := npMean (current.map (fun q => q.peak.mz))
    let group_rt := npMean (current.map (fun q => q.peak.retentionTime))
    if |p.peak.mz - group_mz| ≤ mzTol ∧ |p.peak.retentionTime - group_rt| ≤ rtTol then
      align_group_loop lib mzTol rtTol rest (current ++ [p])
    else
      (if 2 ≤ current.length then [create_aligned_feature lib current] else [])
        ++ align_group_loop lib mzTol rtTol rest [p]

/-- `_align_peaks_fallback` (lines 279-310): sort all pooled peaks by m/z,
seed with the first, run the greedy loop. -/
def align_peaks_fallback (lib : NumLib) (peaks : List TaggedPeak)
    (mzTol rtTol : ℚ) : List AlignedFeature :=
  match sortByKey (fun p => p.peak.mz) peaks with
  | [] => []
  | p :: rest => align_group_loop lib mzTol rtTol rest [p]

/-- `_align_peaks_pyopenms` (lines 273-277) just delegates to the fallback
clustering. -/
def align_peaks_pyopenms (lib : NumLib) (peaks : List TaggedPeak)
    (mzTol rtTol : ℚ) : List AlignedFeature :=
  align_peaks_fallback lib peaks mzTol rtTol

/-- Python `max(sample_peaks, key=...)`: the first peak of maximal
intensity (a later element replaces the best only when strictly larger). -/
def bestPeak : List TaggedPeak → Option TaggedPeak
  | [] => none
  | p :: ps => some (ps.foldl (fun best q =>
      if best.peak.intensity < q.peak.intensity then q else best) p)

/-- `_get_aligned_peaks_for_sample` (lines 326-335): per feature, the
sample's most intense contributing peak, stamped with the feature id. -/
def get_aligned_peaks_for_sample (features : List AlignedFeature)
    (name : String) : List TaggedPeak :=
  List.flatten (features.map (fun f =>
    match bestPeak (f.peaks.filter (fun p => p.sampleName = name)) with
    | none => []
    | some bp => [{ bp with featureId := some f.id }]))

/-- `align_peaks_advanced` (lines 226-267).  With no pooled peak the
samples are returned untouched (line 241); otherwise every sample receives
its aligned peaks and the `aligned` status. -/
def align_peaks_advanced (lib : NumLib) (avail : Bool) (samples : List Sample)
    (params : Params) : StepResponse :=
  let all_peaks := poolPeaks samples
  if all_peaks = [] then { data := samples }
  else
    let mzTol := params.mz_tolerance.getD (1 / 100)
    let rtTol := params.rt_tolerance.getD (1 / 2)
    let features :=
      if avail then align_peaks_pyopenms lib all_peaks mzTol rtTol
      else align_peaks_fallback lib all_peaks mzTol rtTol
    { data := samples.map (fun s =>
        { s with alignedPeaks := get_aligned_peaks_for_sample features s.fileName,
                 processingStatus := "aligned" }) }

/-! ### Statistics (`perform_advanced_statistics` and helpers) -/

/-- Python dict assignment `d[k] = v` on a string-keyed table kept as an
insertion-ordered association list. -/
def setAssoc (k : String) (v : ℚ) : List (String × ℚ) → List (String × ℚ)
  | [] => [(k, v)]
  | kv :: rest => if kv.1 = k then (kv.1, v) :: rest else kv :: setAssoc k v rest

/-- Ordered-dict lookup. -/
def lookupAssoc (k : String) : List (String × ℚ) → Option ℚ
  | [] => none
  | kv :: rest => if kv.1 = k then some kv.2 else lookupAssoc k rest

/-- The per-feature accumulator of `all_features` (lines 343-357): m/z and
retention time of the first contributing peak, the per-sample intensity
dict and the appended sample-name list. -/
structure FeatureData where
  mz : ℚ
  rt : ℚ
  intensities : List (String × ℚ)
  samples : List String
deriving DecidableEq

/-- `peak.get('featureId', f"mz_{peak['mz']:.4f}")` (line 348). -/
def featKeyOf (p : TaggedPeak) : FeatureKey :=
  p.featureId.getD (FeatureKey.mzTag (round4 p.peak.mz))

/-- One loop body iteration of lines 347-357: create the entry on first
sight of a feature key (recording the first peak's m/z and retention
time), then record the sample's intensity and append the sample name. -/
def addPeakEntry (name : String) (p : TaggedPeak) :
    List (FeatureKey × FeatureData) → List (FeatureKey × FeatureData)
  | [] => [(featKeyOf p,
      { mz := p.peak.mz, rt := p.peak.retentionTime,
        intensities := [(name, p.peak.intensity)], samples := [name] })]
  | kv :: rest =>
    if kv.1 = featKeyOf p then
      (kv.1, { kv.2 with
                intensities := setAssoc name p.peak.intensity kv.2.intensities,
                samples := kv.2.samples ++ [name] }) :: rest
    else kv :: addPeakEntry name p rest

/-- The `all_features` table built from every sample's aligned peaks
(lines 343-357), in insertion order. -/
def collectFeatures (samples : List Sample) : List (FeatureKey × FeatureData) :=
  samples.foldl (fun table s =>
    s.alignedPeaks.foldl (fun t p => addPeakEntry s.fileName p t) table) []

/-- Group assignment of lines 363-367: the first `n // 2` sample names
versus the rest, purely by position. -/
def statsGroupNames (samples : List Sample) : List String × List String :=
  let names := samples.map (fun s => s.fileName)
  let mid := names.length / 2
  (names.take mid, names.drop mid)

/-- `feature_data['intensities'].get(name, 0)` over a name list
(lines 371-378): missing sample intensities default to `0`. -/
def groupIntensities (names : List String) (fd : FeatureData) : List ℚ :=
  names.map (fun n => (lookupAssoc n fd.intensities).getD 0)

/-- The per-feature body of lines 369-415: run both tests and derive fold
change, effect size and summary statistics, guarded by both intensity
lists having at least two entries; `none` models the silent skip. -/
def compute_feature_result (lib : NumLib) (pThreshold : ℚ)
    (g1names g2names : List String) (key : FeatureKey) (fd : FeatureData) :
    Option StatisticalResult :=
  let g1 := groupIntensities g1names fd
  let g2 := groupIntensities g2names fd
  if 2 ≤ g1.length ∧ 2 ≤ g2.length then
    let t := lib.ttest_ind g1 g2
    let u := lib.mannwhitneyu g1 g2
    let mean1 := if g1 = [] then 1 else npMean g1
    let mean2 := if g2 = [] then 1 else npMean g2
    let fold_change := if 0 < mean1 then mean2 / mean1 else 1
    let pooled_std := lib.sqrt ((npVar g1 + npVar g2) / 2)
    some
      { featureId := key, mz := fd.mz, rt := fd.rt,
        pValue := t.2, tStatistic := t.1,
        mannWhitneyP := u.2, mannWhitneyU := u.1,
        foldChange := fold_change,
        log2FoldChange := if 0 < fold_change then lib.log2 fold_change else 0,
        cohensD := if 0 < pooled_std then (mean2 - mean1) / pooled_std else 0,
        significant := decide (t.2 < pThreshold),
        group1Mean := mean1, group2Mean := mean2,
        group1Std := lib.sqrt (npVar g1), group2Std := lib.sqrt (npVar g2),
        pValueFDR := 0, pValueBonferroni := 0,
        significantFDR := false, significantBonferroni := false }
  else none

/-- The raw (pre-correction) result list of lines 359-417: one optional
result per collected feature, in table order. -/
def raw_statistical_results (lib : NumLib) (samples : List Sample)
    (params : Params) : List StatisticalResult :=
  let g := statsGroupNames samples
  let pThreshold := params.p_value_threshold.getD (1 / 20)
  (collectFeatures samples).filterMap (fun kv =>
    compute_feature_result lib pThreshold g.1 g.2 kv.1 kv.2)

/-- Benjamini–Hochberg step-up adjusted p-value, modelling
`statsmodels.stats.multitest.multipletests(ps, method='fdr_bh')` (line
424).  statsmodels sorts the vector, divides `p₍ᵢ₎` by `i/n`, takes the
running minimum from the largest rank down and clips at 1; element-wise
that equals `min(1, min over x ∈ ps with p ≤ x of n*x / |{y ∈ ps : y ≤ x}|)`,
which is the order-free form used here. -/
def bhAdjust (ps : List ℚ) (p : ℚ) : ℚ :=
  ((ps.filter (fun x => p ≤ x)).map (fun x =>
    (ps.length : ℚ) * x / (((ps.filter (fun y => y ≤ x)).length : ℚ)))).foldr min 1

/-- The multiple-testing correction pass of lines 419-433: when at least
one feature was tested, stamp every result with its FDR- and
Bonferroni-adjusted p-values and significance flags (statsmodels'
default `alpha = 0.05`; Bonferroni adjusts to `min(1, n*p)` and rejects
at `p ≤ alpha/n`, BH rejects exactly when its adjusted p-value is at most
`alpha`). -/
def apply_corrections (results : List StatisticalResult) : List StatisticalResult :=
  if results = [] then results
  else
    let ps := results.map (fun r => r.pValue)
    let n : ℚ := (ps.length : ℚ)
    results.map (fun r =>
      { r with
        pValueFDR := bhAdjust ps r.pValue,
        pValueBonferroni := min 1 (n * r.pValue),
        significantFDR := decide (bhAdjust ps r.pValue ≤ 1 / 20),
        significantBonferroni := decide (r.pValue ≤ 1 / 20 / n) })

/-- `perform_advanced_statistics` (lines 337-450): compute and correct the
batch-wide result list, then write it — the identical list — onto every
sample together with the final status (lines 435-438). -/
def perform_advanced_statistics (lib : NumLib) (samples : List Sample)
    (params : Params) : StepResponse :=
  let results := apply_corrections (raw_statistical_results lib samples params)
  { data := samples.map (fun s =>
      { s with statisticalResults := results,
               processingStatus := "statistics_completed" }) }

/-! ### Remaining steps and the `/process` dispatcher -/

/-- The `peak_detection` branch of `process_step` (lines 469-482). -/
def peak_detection_step (avail : Bool) (samples : List Sample)
    (params : Params) : StepResponse :=
  { data := samples.map (fun s => detect_peaks_advanced avail s params) }

/-- The `filtering` branch (lines 490-510): keep detected peaks with
`intensity ≥ min_intensity` (default 500) and `snr ≥ 3`.  (The
`cv_threshold` parameter is read by the source but never used.) -/
def filtering_step (samples : List Sample) (params : Params) : StepResponse :=
  let minI := params.min_intensity.getD 500
  { data := samples.map (fun s =>
      { s with
        filteredPeaks := s.detectedPeaks.filter (fun p =>
          minI ≤ p.intensity ∧ 3 ≤ p.snr),
        processingStatus := "filtered" }) }

/-- `peak['intensity'] = peak['intensity'] / norm_factor * 1000000`
(line 532). -/
def normalize_peak (norm_factor : ℚ) (p : Peak) : Peak :=
  { p with intensity := p.intensity / norm_factor * 1000000 }

/-- The `normalization` branch (lines 512-540).  Samples without detected
peaks are skipped.  The factor is the median or mean of the intensities,
`1.0` for an unrecognized method; when positive, every peak dict is
mutated in place, so both `detectedPeaks` and `normalizedPeaks` end up
holding the rescaled peaks. -/
def normalization_step (samples : List Sample) (params : Params) : StepResponse :=
  let method := params.method.getD "median"
  { data := samples.map (fun s =>
      if s.detectedPeaks = [] then s
      else
        let intensities := s.detectedPeaks.map (fun p => p.intensity)
        let norm_factor :=
          if method = "median" then npMedian intensities
          else if method = "mean" then npMean intensities
          else 1
        let newPeaks :=
          if 0 < norm_factor then s.detectedPeaks.map (normalize_peak norm_factor)
          else s.detectedPeaks
        { s with detectedPeaks := newPeaks,
                 normalizedPeaks := newPeaks,
                 processingStatus := "normalized" }) }

/-- The `identification` stub (lines 542-570): among the first 50 detected
peaks, those with intensity above 10000 become placeholder compounds. -/
def identification_step (samples : List Sample) : StepResponse :=
  { data := samples.map (fun s =>
      let comps := ((s.detectedPeaks.take 50).filter (fun p =>
          10000 < p.intensity)).map (fun p =>
        { nameMz4 := round4 p.mz, formula := "Unknown", mass := p.mz,
          matchScore := min (p.snr / 10) 1, database := "theoretical",
          confidence := "putative" })
      { s with identifiedCompounds := comps,
               processingStatus := "identified" }) }

/-- The six known step names of the dispatcher. -/
def knownSteps : List String :=
  ["peak_detection", "alignment", "statistics", "filtering",
   "normalization", "identification"]

/-- The `try:` body of `process_step` (lines 462-573): dispatch on the
step name, raising `HTTPException(400)` for an unknown step. -/
def process_step_body (lib : NumLib) (avail : Bool) (req : ProcessingRequest) :
    Except HTTPError StepResponse :=
  if req.step = "peak_detection" then
    Except.ok (peak_detection_step avail req.data req.parameters)
  else if req.step = "alignment" then
    Except.ok (align_peaks_advanced lib avail req.data req.parameters)
  else if req.step = "statistics" then
    Except.ok (perform_advanced_statistics lib req.data req.parameters)
  else if req.step = "filtering" then
    Except.ok (filtering_step req.data req.parameters)
  else if req.step = "normalization" then
    Except.ok (normalization_step req.data req.parameters)
  else if req.step = "identification" then
    Except.ok (identification_step req.data)
  else
    Except.error { status := 400, detail := "Unknown processing step: " ++ req.step }

/-- Starlette's `str(HTTPException)`: `f"{status_code}: {detail}"`. -/
def httpErrString (e : HTTPError) : String :=
  toString e.status ++ ": " ++ e.detail

/-- `process_step` (lines 459-577): the whole body sits inside
`try: ... except Exception as e: raise HTTPException(500, str(e))`, so
every raised `HTTPException` — including the intended 400 for an unknown
step — is caught and re-raised as a 500 server error. -/
def process_step (lib : NumLib) (avail : Bool) (req : ProcessingRequest) :
    Except HTTPError StepResponse :=
  match process_step_body lib avail req with
  | Except.ok r => Except.ok r
  | Except.error e => Except.error { status := 500, detail := httpErrString e }

/-! ### Concrete fixtures for witnesses and counterexamples -/

/-- Instantiation of the opaque routines used for concrete evaluation:
both tests return statistic `0` with p-value `1/2`; `log2` and `sqrt`
return `0`. -/
def dummyLib : NumLib :=
  { ttest_ind := fun _ _ => (0, 1 / 2),
    mannwhitneyu := fun _ _ => (0, 1 / 2),
    log2 := fun _ => 0,
    sqrt := fun _ => 0 }

/-- A spectrum with eleven raw peaks, one far above the noise floor. -/
def wSpec11 : Spectrum :=
  { retentionTime := 2, msLevel := 1, scanNumber := 3,
    peaks := [⟨1, 10⟩, ⟨2, 10⟩, ⟨3, 10⟩, ⟨4, 10⟩, ⟨5, 100000⟩, ⟨6, 10⟩,
              ⟨7, 10⟩, ⟨8, 10⟩, ⟨9, 10⟩, ⟨10, 10⟩, ⟨11, 10⟩] }

/-- The sole surviving peak of `wSpec11` on the PyOpenMS path (noise floor
`50`, minimum intensity `1000`). -/
def wBigPeak : Peak :=
  { mz := 5, intensity := 100000, retentionTime := 2, scanNumber := 3,
    msLevel := 1, snr := 2000, noiseLevel := 50 }

/-- A five-peak spectrum for the fallback path. -/
def wSpecF : Spectrum :=
  { retentionTime := 2, msLevel := 1, scanNumber := 3,
    peaks := [⟨1, 10⟩, ⟨2, 10⟩, ⟨3, 10⟩, ⟨4, 10⟩, ⟨5, 100000⟩] }

/-- The sole surviving peak of `wSpecF` on the fallback path (noise floor
`10`, minimum intensity `1000`). -/
def wFPeak : Peak :=
  { mz := 5, intensity := 100000, retentionTime := 2, scanNumber := 3,
    msLevel := 1, snr := 10000, noiseLevel := 10 }

/-- Two pooled peaks from the same sample, within tolerance of each other. -/
def wP1 : TaggedPeak :=
  { peak := { mz := 100, intensity := 10, retentionTime := 0, scanNumber := 1,
              msLevel := 1, snr := 5, noiseLevel := 2 },
    sampleIndex := 0, sampleName := "A", featureId := none }

/-- Second same-sample peak, m/z `100.005`. -/
def wP2 : TaggedPeak :=
  { peak := { mz := 20001 / 200, intensity := 30, retentionTime := 0,
              scanNumber := 2, msLevel := 1, snr := 5, noiseLevel := 2 },
    sampleIndex := 0, sampleName := "A", featureId := none }

/-- Like `wP2` but contributed by a second sample. -/
def wQ2 : TaggedPeak :=
  { peak := { mz := 20001 / 200, intensity := 30, retentionTime := 0,
              scanNumber := 2, msLevel := 1, snr := 5, noiseLevel := 2 },
    sampleIndex := 1, sampleName := "B", featureId := none }

/-- The feature produced from the two-sample pair `wP1`, `wQ2`. -/
def wFeat1 : AlignedFeature := create_aligned_feature dummyLib [wP1, wQ2]

/-- An aligned peak of sample `a` carrying a feature id. -/
def wTpA : TaggedPeak :=
  { peak := { mz := 100, intensity := 5, retentionTime := 1, scanNumber := 1,
              msLevel := 1, snr := 5, noiseLevel := 1 },
    sampleIndex := 0, sampleName := "a",
    featureId := some (FeatureKey.featureTag 2 1000000) }

/-- Four aligned samples of which only `a` contributed a peak to the
single feature. -/
def wC7samples : List Sample :=
  [{ mkSample "a" with alignedPeaks := [wTpA], processingStatus := "aligned" },
   { mkSample "b" with processingStatus := "aligned" },
   { mkSample "c" with processingStatus := "aligned" },
   { mkSample "d" with processingStatus := "aligned" }]

/-- An aligned peak for feature table entry of a given sample/intensity. -/
def wTpOf (idx : ℕ) (name : String) (intensity : ℚ) : TaggedPeak :=
  { peak := { mz := 100, intensity := intensity, retentionTime := 1,
              scanNumber := 1, msLevel := 1, snr := 5, noiseLevel := 1 },
    sampleIndex := idx, sampleName := name,
    featureId := some (FeatureKey.featureTag 4 1000000) }

/-- Four aligned samples all contributing to one shared feature. -/
def wStatSamples : List Sample :=
  [{ mkSample "a" with alignedPeaks := [wTpOf 0 "a" 4], processingStatus := "aligned" },
   { mkSample "b" with alignedPeaks := [wTpOf 1 "b" 2], processingStatus := "aligned" },
   { mkSample "c" with alignedPeaks := [wTpOf 2 "c" 6], processingStatus := "aligned" },
   { mkSample "d" with alignedPeaks := [wTpOf 3 "d" 6], processingStatus := "aligned" }]

/-- The corrected statistics record the batch `wStatSamples` produces
under `dummyLib` (raw p-value `1/2`; with a single test both adjusted
p-values equal `1/2`). -/
def wR3 : StatisticalResult :=
  { featureId := FeatureKey.featureTag 4 1000000, mz := 100, rt := 1,
    pValue := 1 / 2, tStatistic := 0, mannWhitneyP := 1 / 2, mannWhitneyU := 0,
    foldChange := 2, log2FoldChange := 0, cohensD := 0, significant := false,
    group1Mean := 3, group2Mean := 6, group1Std := 0, group2Std := 0,
    pValueFDR := 1 / 2, pValueBonferroni := 1 / 2,
    significantFDR := false, significantBonferroni := false }

/-- The first sample of `wStatSamples` as returned by the statistics
step: it carries the batch-wide result list `[wR3]`. -/
def wS3 : Sample :=
  { mkSample "a" with alignedPeaks := [wTpOf 0 "a" 4],
                      statisticalResults := [wR3],
                      processingStatus := "statistics_completed" }

/-- A feature-table entry with intensities recorded for all four samples. -/
def wFd : FeatureData :=
  { mz := 100, rt := 10,
    intensities := [("a", 4), ("b", 2), ("c", 6), ("d", 6)],
    samples := ["a", "b", "c", "d"] }

/-- The statistics record computed from `wFd` under `dummyLib` with groups
`["a","b"]` and `["c","d"]`. -/
def wC4res : StatisticalResult :=
  { featureId := FeatureKey.mzTag 0, mz := 100, rt := 10,
    pValue := 1 / 2, tStatistic := 0, mannWhitneyP := 1 / 2, mannWhitneyU := 0,
    foldChange := 2, log2FoldChange := 0, cohensD := 0, significant := false,
    group1Mean := 3, group2Mean := 6, group1Std := 0, group2Std := 0,
    pValueFDR := 0, pValueBonferroni := 0,
    significantFDR := false, significantBonferroni := false }

/-- A detected peak of intensity `100`. -/
def wNormPeak : Peak :=
  { mz := 50, intensity := 100, retentionTime := 1, scanNumber := 1,
    msLevel := 1, snr := 10, noiseLevel := 10 }

/-- A sample holding the single detected peak `wNormPeak`. -/
def wNormSample : Sample :=
  { mkSample "s1" with detectedPeaks := [wNormPeak],
                       processingStatus := "peaks_detected" }

/-- Parameters selecting an unrecognized normalization method. -/
def wBogusParams : Params := { emptyParams with method := some "zscore" }

/-- Parameters selecting the median normalization method. -/
def wMedianParams : Params := { emptyParams with method := some "median" }

/-- A fresh sample for the statistics-step witness. -/
def wSampleA : Sample := mkSample "only"

/-- `wSampleA` after the statistics step on the singleton batch: no
feature tested, empty result list, final status. -/
def wS10 : Sample :=
  { mkSample "only" with statisticalResults := [],
                         processingStatus := "statistics_completed" }

/-! ### Helper lemmas -/

theorem foldr_min_le_init (l : List ℚ) (a : ℚ) : l.foldr min a ≤ a := by
  induction l with
  | nil => exact le_refl a
  | cons x xs ih => exact le_trans (min_le_right x (xs.foldr min a)) ih

theorem foldr_min_le_mem {l : List ℚ} {x : ℚ} (hx : x ∈ l) (a : ℚ) :
    l.foldr min a ≤ x := by
  induction l with
  | nil => cases hx
  | cons y ys ih =>
    rcases List.mem_cons.mp hx with h | h
    · rw [h]; exact min_le_left y (ys.foldr min a)
    · exact le_trans (min_le_right y (ys.foldr min a)) (ih h)

theorem le_foldr_min {l : List ℚ} {p a : ℚ} (h : ∀ x ∈ l, p ≤ x) (ha : p ≤ a) :
    p ≤ l.foldr min a := by
  induction l with
  | nil => exact ha
  | cons y ys ih =>
    exact le_min (h y (List.mem_cons_self y ys))
      (ih (fun x hx => h x (List.mem_cons_of_mem y hx)))

theorem bhAdjust_le_one (ps : List ℚ) (p : ℚ) : bhAdjust ps p ≤ 1 :=
  foldr_min_le_init _ _

theorem bhAdjust_le_mul {ps : List ℚ} {p : ℚ} (hp : p ∈ ps) (h0 : 0 ≤ p) :
    bhAdjust ps p ≤ (ps.length : ℚ) * p := by
  have hpf : p ∈ ps.filter (fun x => decide (p ≤ x)) := by
    simp [List.mem_filter, hp]
  have hmem : (ps.length : ℚ) * p / (((ps.filter (fun y => y ≤ p)).length : ℚ))
      ∈ (ps.filter (fun x => p ≤ x)).map (fun x =>
          (ps.length : ℚ) * x / (((ps.filter (fun y => y ≤ x)).length : ℚ))) :=
    List.mem_map_of_mem _ hpf
  have hpf2 : p ∈ ps.filter (fun y => decide (y ≤ p)) := by
    simp [List.mem_filter, hp]
  have hc1 : (1 : ℚ) ≤ (((ps.filter (fun y => y ≤ p)).length : ℚ)) := by
    exact_mod_cast List.length_pos_of_mem hpf2
  exact le_trans (foldr_min_le_mem hmem 1)
    (div_le_self (mul_nonneg (Nat.cast_nonneg _) h0) hc1)

theorem le_bhAdjust {ps : List ℚ} {p : ℚ} (h0 : 0 ≤ p) (h1 : p ≤ 1) :
    p ≤ bhAdjust ps p := by
  refine le_foldr_min ?_ h1
  intro t ht
  obtain ⟨x, hx, rfl⟩ := List.mem_map.mp ht
  have hxps : x ∈ ps := (List.mem_filter.mp hx).1
  have hpx : p ≤ x := of_decide_eq_true (List.mem_filter.mp hx).2
  have hx0 : 0 ≤ x := le_trans h0 hpx
  have hxf : x ∈ ps.filter (fun y => decide (y ≤ x)) := by
    simp [List.mem_filter, hxps]
  have hcpos : (0 : ℚ) < (((ps.filter (fun y => y ≤ x)).length : ℚ)) := by
    exact_mod_cast List.length_pos_of_mem hxf
  have hcn : (((ps.filter (fun y => y ≤ x)).length : ℚ)) ≤ (ps.length : ℚ) := by
    exact_mod_cast List.length_filter_le _ _
  rw [le_div_iff₀ hcpos]
  calc p * (((ps.filter (fun y => y ≤ x)).length : ℚ))
      ≤ x * (((ps.filter (fun y => y ≤ x)).length : ℚ)) :=
        mul_le_mul_of_nonneg_right hpx (le_of_lt hcpos)
    _ ≤ x * (ps.length : ℚ) := mul_le_mul_of_nonneg_left hcn hx0
    _ = (ps.length : ℚ) * x := mul_comm _ _

theorem mem_apply_corrections {r : StatisticalResult}
    {results : List StatisticalResult} (hr : r ∈ apply_corrections results) :
    ∃ r0 ∈ results,
      r.pValue = r0.pValue ∧
      r.pValueFDR = bhAdjust (results.map (fun x => x.pValue)) r0.pValue ∧
      r.pValueBonferroni = min 1 ((results.length : ℚ) * r0.pValue) := by
  unfold apply_corrections at hr
  by_cases h : results = []
  · rw [if_pos h] at hr
    rw [h] at hr
    cases hr
  · rw [if_neg h] at hr
    obtain ⟨r0, hr0, rfl⟩ := List.mem_map.mp hr
    exact ⟨r0, hr0, rfl, rfl, by rw [List.length_map]⟩

theorem raw_result_pValue {lib : NumLib} {samples : List Sample}
    {params : Params} {r : StatisticalResult}
    (hr : r ∈ raw_statistical_results lib samples params) :
    ∃ g1 g2, r.pValue = (lib.ttest_ind g1 g2).2 := by
  unfold raw_statistical_results at hr
  obtain ⟨kv, _, hkv⟩ := List.mem_filterMap.mp hr
  unfold compute_feature_result at hkv
  by_cases h :
      2 ≤ (groupIntensities (statsGroupNames samples).1 kv.2).length ∧
      2 ≤ (groupIntensities (statsGroupNames samples).2 kv.2).length
  · rw [if_pos h] at hkv
    refine ⟨groupIntensities (statsGroupNames samples).1 kv.2,
            groupIntensities (statsGroupNames samples).2 kv.2, ?_⟩
    rw [← Option.some.inj hkv]
  · rw [if_neg h] at hkv
    cases hkv

theorem compute_feature_result_isSome {lib : NumLib} {pT : ℚ}
    {g1n g2n : List String} {key : FeatureKey} {fd : FeatureData}
    (h : 2 ≤ g1n.length ∧ 2 ≤ g2n.length) :
    (compute_feature_result lib pT g1n g2n key fd).isSome := by
  unfold compute_feature_result
  rw [if_pos]
  · rfl
  · unfold groupIntensities
    rw [List.length_map, List.length_map]
    exact h

theorem compute_feature_result_none {lib : NumLib} {pT : ℚ}
    {g1n g2n : List String} {key : FeatureKey} {fd : FeatureData}
    (h : ¬(2 ≤ g1n.length ∧ 2 ≤ g2n.length)) :
    compute_feature_result lib pT g1n g2n key fd = none := by
  unfold compute_feature_result
  rw [if_neg]
  intro hc
  apply h
  unfold groupIntensities at hc
  rw [List.length_map, List.length_map] at hc
  exact hc

theorem length_filterMap_of_isSome {α β : Type} (f : α → Option β)
    (l : List α) (h : ∀ a ∈ l, (f a).isSome) :
    (l.filterMap f).length = l.length := by
  induction l with
  | nil => rfl
  | cons a l ih =>
    obtain ⟨b, hb⟩ := Option.isSome_iff_exists.mp (h a (List.mem_cons_self a l))
    rw [List.filterMap_cons, hb, List.length_cons,
        ih (fun x hx => h x (List.mem_cons_of_mem a hx)), List.length_cons]

theorem align_group_loop_mem {lib : NumLib} {mzTol rtTol : ℚ} :
    ∀ (rest current : List TaggedPeak) (f : AlignedFeature),
      f ∈ align_group_loop lib mzTol rtTol rest current →
      ∃ g, 2 ≤ g.length ∧ f = create_aligned_feature lib g := by
  intro rest
  induction rest with
  | nil =>
    intro current f hf
    simp only [align_group_loop] at hf
    by_cases h : 2 ≤ current.length
    · rw [if_pos h] at hf
      rcases List.mem_singleton.mp hf with rfl
      exact ⟨current, h, rfl⟩
    · rw [if_neg h] at hf
      cases hf
  | cons p rest ih =>
    intro current f hf
    simp only [align_group_loop] at hf
    by_cases h :
        |p.peak.mz - npMean (current.map (fun q => q.peak.mz))| ≤ mzTol ∧
        |p.peak.retentionTime -
            npMean (current.map (fun q => q.peak.retentionTime))| ≤ rtTol
    · rw [if_pos h] at hf
      exact ih (current ++ [p]) f hf
    · rw [if_neg h] at hf
      rcases List.mem_append.mp hf with h1 | h2
      · by_cases hl : 2 ≤ current.length
        · rw [if_pos hl] at h1
          rcases List.mem_singleton.mp h1 with rfl
          exact ⟨current, hl, rfl⟩
        · rw [if_neg hl] at h1
          cases h1
      · exact ih [p] f h2

/-! ### Claims

Rational arithmetic from Batteries is `@[irreducible]`; concrete
evaluations below restore kernel-style reduction for it. -/

attribute [local semireducible] Rat.mul Rat.add Rat.sub Rat.inv Rat.ofScientific

/-- C1, counterexample: two peaks of the same sample `"A"` within
tolerance form a single group of two peaks, which the code finalizes into
an aligned feature with `sample_count = 1` — refuting that every produced
feature has `sample_count ≥ 2` and that single-sample groups are
discarded. -/
theorem claim_C1_counterexample :
    (align_peaks_fallback dummyLib [wP1, wP2] (1 / 100) (1 / 2)).map
      (fun f => f.sample_count) = [1] := by
  decide

/-- C1, amended: for every feature produced by the alignment step,
`sample_count` equals the number of distinct sample names among its
contributing peaks, and the group was finalized because it contains at
least two peaks (not two distinct samples), so only `sample_count ≥ 1` is
guaranteed; single-peak groups are the ones discarded. -/
theorem claim_C1_amended (lib : NumLib) (peaks : List TaggedPeak)
    (mzTol rtTol : ℚ) :
    ∀ f ∈ align_peaks_fallback lib peaks mzTol rtTol,
      f.sample_count = (f.peaks.map (fun p => p.sampleName)).dedup.length ∧
      2 ≤ f.peaks.length ∧ 1 ≤ f.sample_count := by
  intro f hf
  unfold align_peaks_fallback at hf
  rcases hs : sortByKey (fun p => p.peak.mz) peaks with _ | ⟨p, rest⟩
  · rw [hs] at hf
    cases hf
  · rw [hs] at hf
    obtain ⟨g, hg2, rfl⟩ := align_group_loop_mem rest [p] f hf
    have hgne : g ≠ [] := by
      intro h
      rw [h] at hg2
      exact absurd hg2 (by norm_num)
    refine ⟨rfl, hg2, ?_⟩
    have hmapne : g.map (fun q => q.sampleName) ≠ [] := by
      intro h
      exact hgne (List.map_eq_nil_iff.mp h)
    have hd : (g.map (fun q => q.sampleName)).dedup ≠ [] := by
      intro h
      exact hmapne ((List.dedup_eq_nil _).mp h)
    exact List.length_pos.mpr hd

/-- C1, witness for the amended claim at the two-sample pair
`wP1`, `wQ2`. -/
theorem claim_C1_witness :
    wFeat1.sample_count =
      (wFeat1.peaks.map (fun p => p.sampleName)).dedup.length ∧
    2 ≤ wFeat1.peaks.length ∧ 1 ≤ wFeat1.sample_count :=
  claim_C1_amended dummyLib [wP1, wQ2] (1 / 100) (1 / 2) wFeat1 (by decide)

/-- C2: for every request with an unknown step name the dispatcher raises
the intended `HTTPException(400)`, but the surrounding
`except Exception` of `process_step` catches it and re-raises
`HTTPException(500, str(e))` — so the observable response is a *server*
error (status 500) whose detail wraps the 400 message; no processing is
performed on the batch.  This contradicts the claimed client-error
signal and exhibits the code bug. -/
theorem claim_C2_server_error (lib : NumLib) (avail : Bool)
    (data : List Sample) (params : Params) (step : String)
    (h : step ∉ knownSteps) :
    process_step lib avail { step := step, data := data, parameters := params } =
      Except.error
        ⟨500, httpErrString ⟨400, "Unknown processing step: " ++ step⟩⟩ := by
  simp only [knownSteps, List.mem_cons, List.not_mem_nil, or_false, not_or] at h
  obtain ⟨h1, h2, h3, h4, h5, h6⟩ := h
  unfold process_step process_step_body
  rw [if_neg h1, if_neg h2, if_neg h3, if_neg h4, if_neg h5, if_neg h6]

/-- C2, witness at the unknown step `"bogus"`. -/
theorem claim_C2_witness :
    process_step dummyLib true
        { step := "bogus", data := [], parameters := emptyParams } =
      Except.error
        ⟨500, httpErrString ⟨400, "Unknown processing step: " ++ "bogus"⟩⟩ :=
  claim_C2_server_error dummyLib true [] emptyParams "bogus" (by decide)

/-- C3: after the statistics step, every result of every returned sample
satisfies `pValueBonferroni ≥ pValueFDR ≥ pValue` (vacuously when no
feature was tested), given that the external t-test produces p-values in
`[0, 1]`. -/
theorem claim_C3 (lib : NumLib) (samples : List Sample) (params : Params)
    (hlib : ∀ g1 g2, 0 ≤ (lib.ttest_ind g1 g2).2 ∧ (lib.ttest_ind g1 g2).2 ≤ 1) :
    ∀ s ∈ (perform_advanced_statistics lib samples params).data,
      ∀ r ∈ s.statisticalResults,
        r.pValue ≤ r.pValueFDR ∧ r.pValueFDR ≤ r.pValueBonferroni := by
  intro s hs r hr
  unfold perform_advanced_statistics at hs
  dsimp only at hs
  obtain ⟨s0, _, rfl⟩ := List.mem_map.mp hs
  have hr2 : r ∈ apply_corrections (raw_statistical_results lib samples params) := hr
  obtain ⟨r0, hr0, hpv, hfdr, hbonf⟩ := mem_apply_corrections hr2
  have hp01 : 0 ≤ r0.pValue ∧ r0.pValue ≤ 1 := by
    obtain ⟨g1, g2, hg⟩ := raw_result_pValue hr0
    rw [hg]
    exact hlib g1 g2
  have hmem : r0.pValue ∈
      (raw_statistical_results lib samples params).map (fun x => x.pValue) :=
    List.mem_map_of_mem _ hr0
  constructor
  · rw [hpv, hfdr]
    exact le_bhAdjust hp01.1 hp01.2
  · rw [hfdr, hbonf]
    refine le_min (bhAdjust_le_one _ _) ?_
    have hb := bhAdjust_le_mul hmem hp01.1
    rwa [List.length_map] at hb

/-- C3, witness: the four-sample batch `wStatSamples` with the concrete
test library whose p-values are `1/2`, instantiated at the returned
sample `wS3` and its result `wR3`. -/
theorem claim_C3_witness :
    wR3.pValue ≤ wR3.pValueFDR ∧ wR3.pValueFDR ≤ wR3.pValueBonferroni :=
  claim_C3 dummyLib wStatSamples emptyParams
    (fun g1 g2 => ⟨by norm_num [dummyLib], by norm_num [dummyLib]⟩)
    wS3 (by decide) wR3 (by decide)

/-- C4: every statistics record produced for a tested feature carries
`foldChange = mean(group2) / mean(group1)` when `mean(group1) > 0` and
the guard value `1` when `mean(group1) ≤ 0` (so the division is never
taken with a nonpositive denominator), and
`log2FoldChange = log2(foldChange)` when `foldChange > 0`, else `0`. -/
theorem claim_C4 (lib : NumLib) (pT : ℚ) (g1n g2n : List String)
    (key : FeatureKey) (fd : FeatureData) (r : StatisticalResult)
    (h : compute_feature_result lib pT g1n g2n key fd = some r) :
    ((0 < npMean (groupIntensities g1n fd) →
        r.foldChange =
          npMean (groupIntensities g2n fd) / npMean (groupIntensities g1n fd)) ∧
      (npMean (groupIntensities g1n fd) ≤ 0 → r.foldChange = 1)) ∧
    ((0 < r.foldChange → r.log2FoldChange = lib.log2 r.foldChange) ∧
      (r.foldChange ≤ 0 → r.log2FoldChange = 0)) := by
  unfold compute_feature_result at h
  by_cases hc : 2 ≤ (groupIntensities g1n fd).length ∧
      2 ≤ (groupIntensities g2n fd).length
  · rw [if_pos hc] at h
    have hg1ne : groupIntensities g1n fd ≠ [] := by
      intro he
      rw [he] at hc
      exact absurd hc.1 (by norm_num)
    have hg2ne : groupIntensities g2n fd ≠ [] := by
      intro he
      rw [he] at hc
      exact absurd hc.2 (by norm_num)
    have hrec := Option.some.inj h
    have hfc : r.foldChange =
        if 0 < npMean (groupIntensities g1n fd) then
          npMean (groupIntensities g2n fd) / npMean (groupIntensities g1n fd)
        else 1 := by
      rw [← hrec]
      dsimp only
      rw [if_neg hg1ne, if_neg hg2ne]
    have hlfc : r.log2FoldChange =
        if 0 < r.foldChange then lib.log2 r.foldChange else 0 := by
      conv_lhs => rw [← hrec]
      conv_rhs => rw [← hrec]
    refine ⟨⟨?_, ?_⟩, ?_, ?_⟩
    · intro hpos
      rw [hfc, if_pos hpos]
    · intro hle
      rw [hfc, if_neg (not_lt.mpr hle)]
    · intro hpos
      rw [hlfc, if_pos hpos]
    · intro hle
      rw [hlfc, if_neg (not_lt.mpr hle)]
  · rw [if_neg hc] at h
    cases h

/-- C4, witness at the concrete feature-table entry `wFd` with groups
`["a","b"]` and `["c","d"]`. -/
theorem claim_C4_witness :
    ((0 < npMean (groupIntensities ["a", "b"] wFd) →
        wC4res.foldChange =
          npMean (groupIntensities ["c", "d"] wFd) /
            npMean (groupIntensities ["a", "b"] wFd)) ∧
      (npMean (groupIntensities ["a", "b"] wFd) ≤ 0 →
        wC4res.foldChange = 1)) ∧
    ((0 < wC4res.foldChange →
        wC4res.log2FoldChange = dummyLib.log2 wC4res.foldChange) ∧
      (wC4res.foldChange ≤ 0 → wC4res.log2FoldChange = 0)) :=
  claim_C4 dummyLib (1 / 20) ["a", "b"] ["c", "d"] (FeatureKey.mzTag 0) wFd
    wC4res (by decide)

/-- C5: every peak emitted by either detection path has
`intensity ≥ max(noise_threshold, noise_floor * multiplier)` — multiplier
`3` on the PyOpenMS path, `2` on the fallback path — and carries
`snr = intensity / max(noise_floor, 1)`, where the noise floor is the
respective path's estimate. -/
theorem claim_C5 :
    (∀ (sd : Spectrum) (params : Params) (p : Peak),
        p ∈ detect_peaks_pyopenms sd params →
        max (params.noise_threshold.getD 1000) (pyopenms_noise sd * 3) ≤
            p.intensity ∧
        p.snr = p.intensity / max (pyopenms_noise sd) 1) ∧
    (∀ (sd : Spectrum) (params : Params) (p : Peak),
        p ∈ detect_peaks_fallback sd params →
        max (params.noise_threshold.getD 1000) (fallback_noise_level sd * 2) ≤
            p.intensity ∧
        p.snr = p.intensity / max (fallback_noise_level sd) 1) := by
  constructor
  · intro sd params p hp
    unfold detect_peaks_pyopenms at hp
    by_cases hlen : 10 < (sortByKey (fun q => q.mz) sd.peaks).length
    · rw [if_pos hlen] at hp
      dsimp only at hp
      obtain ⟨q, hq, rfl⟩ := List.mem_map.mp hp
      have hfil := List.mem_filter.mp hq
      exact ⟨of_decide_eq_true hfil.2, rfl⟩
    · rw [if_neg hlen] at hp
      cases hp
  · intro sd params p hp
    unfold detect_peaks_fallback at hp
    by_cases hne : sd.peaks = []
    · rw [if_pos hne] at hp
      cases hp
    · rw [if_neg hne] at hp
      dsimp only at hp
      obtain ⟨q, hq, rfl⟩ := List.mem_map.mp hp
      have hfil := List.mem_filter.mp hq
      exact ⟨of_decide_eq_true hfil.2, rfl⟩

/-- C5, witness: the surviving peak of `wSpec11` on the PyOpenMS path and
of `wSpecF` on the fallback path, at the default noise threshold. -/
theorem claim_C5_witness :
    (max (emptyParams.noise_threshold.getD 1000) (pyopenms_noise wSpec11 * 3) ≤
        wBigPeak.intensity ∧
      wBigPeak.snr = wBigPeak.intensity / max (pyopenms_noise wSpec11) 1) ∧
    (max (emptyParams.noise_threshold.getD 1000)
        (fallback_noise_level wSpecF * 2) ≤ wFPeak.intensity ∧
      wFPeak.snr = wFPeak.intensity / max (fallback_noise_level wSpecF) 1) :=
  ⟨claim_C5.1 wSpec11 emptyParams wBigPeak (by decide),
   claim_C5.2 wSpecF emptyParams wFPeak (by decide)⟩

/-- C6: the statistics step's comparison groups are purely positional —
group 1 is the first `⌊n/2⌋` file names of the input ordering, group 2
the remainder, and together they partition the name sequence. -/
theorem claim_C6 (samples : List Sample) :
    (statsGroupNames samples).1 =
      (samples.map (fun s => s.fileName)).take (samples.length / 2) ∧
    (statsGroupNames samples).2 =
      (samples.map (fun s => s.fileName)).drop (samples.length / 2) ∧
    (statsGroupNames samples).1 ++ (statsGroupNames samples).2 =
      samples.map (fun s => s.fileName) := by
  unfold statsGroupNames
  dsimp only
  rw [List.length_map]
  exact ⟨rfl, rfl, List.take_append_drop _ _⟩

/-- C7, counterexample: in the batch `wC7samples` only sample `"a"` has a
recorded intensity for the single feature — fewer than the two recorded
intensities the claim requires in group 1 — yet the statistics step does
not skip the feature and produces a result for it, because the group
intensity lists are padded with `0` to the full group size. -/
theorem claim_C7_counterexample :
    ((collectFeatures wC7samples).map (fun kv =>
        ((statsGroupNames wC7samples).1.filter (fun n =>
          (lookupAssoc n kv.2.intensities).isSome)).length)) = [1] ∧
    (raw_statistical_results dummyLib wC7samples emptyParams).length = 1 := by
  exact ⟨by decide, by decide⟩

/-- C7, amended: a feature is skipped exactly when either comparison
group has fewer than 2 *samples* (missing intensities default to `0` and
are not excluded, so the intensity lists always have the full group
sizes): with both groups of size ≥ 2 every collected feature yields a
result, otherwise none does. -/
theorem claim_C7_amended (lib : NumLib) (samples : List Sample) (params : Params) :
    (2 ≤ (statsGroupNames samples).1.length ∧
        2 ≤ (statsGroupNames samples).2.length →
      (raw_statistical_results lib samples params).length =
        (collectFeatures samples).length) ∧
    (¬(2 ≤ (statsGroupNames samples).1.length ∧
        2 ≤ (statsGroupNames samples).2.length) →
      raw_statistical_results lib samples params = []) := by
  constructor
  · intro h
    unfold raw_statistical_results
    exact length_filterMap_of_isSome _ _
      (fun kv _ => compute_feature_result_isSome h)
  · intro h
    unfold raw_statistical_results
    exact List.filterMap_eq_nil_iff.mpr (fun kv _ => compute_feature_result_none h)

/-- C7, witness for the amended claim: with four samples (both groups of
size 2) the single collected feature of `wC7samples` is tested. -/
theorem claim_C7_witness :
    (raw_statistical_results dummyLib wC7samples emptyParams).length =
      (collectFeatures wC7samples).length :=
  (claim_C7_amended dummyLib wC7samples emptyParams).1 (by decide)

/-- C8, counterexample: normalizing the sample `wNormSample` (one peak of
intensity `100`) with the unrecognized method `"zscore"` is not a no-op:
the peak's intensity becomes `100 / 1.0 * 1000000 = 100000000`. -/
theorem claim_C8_counterexample :
    wNormSample.detectedPeaks.map (fun p => p.intensity) = [100] ∧
    ((normalization_step [wNormSample] wBogusParams).data.map (fun s =>
        s.detectedPeaks.map (fun p => p.intensity))) = [[100000000]] := by
  exact ⟨by decide, by decide⟩

/-- C8, amended: with an unrecognized method the normalization step does
use the factor `1.0`, but it is not a no-op — every sample with detected
peaks has each peak's intensity replaced by
`intensity / 1.0 * 1000000`, and its status set to `normalized`
(peak-less samples are skipped). -/
theorem claim_C8_amended (samples : List Sample) (params : Params)
    (m : String) (hm : params.method = some m)
    (h1 : ¬(m = "median")) (h2 : ¬(m = "mean")) :
    (normalization_step samples params).data = samples.map (fun s =>
      if s.detectedPeaks = [] then s
      else { s with detectedPeaks := s.detectedPeaks.map (normalize_peak 1),
                    normalizedPeaks := s.detectedPeaks.map (normalize_peak 1),
                    processingStatus := "normalized" }) := by
  unfold normalization_step
  rw [hm]
  dsimp only [Option.getD_some]
  refine congrArg (fun f => List.map f samples) (funext fun s => ?_)
  by_cases he : s.detectedPeaks = []
  · rw [if_pos he, if_pos he]
  · rw [if_neg he, if_neg he, if_neg h1, if_neg h2,
        if_pos (show (0 : ℚ) < 1 by norm_num)]

/-- C8, witness for the amended claim at `wNormSample` with method
`"zscore"`. -/
theorem claim_C8_witness :
    (normalization_step [wNormSample] wBogusParams).data =
      [wNormSample].map (fun s =>
        if s.detectedPeaks = [] then s
        else { s with detectedPeaks := s.detectedPeaks.map (normalize_peak 1),
                      normalizedPeaks := s.detectedPeaks.map (normalize_peak 1),
                      processingStatus := "normalized" }) :=
  claim_C8_amended [wNormSample] wBogusParams "zscore" rfl (by decide) (by decide)

/-- C9, counterexample: the normalization step mutates the peak dicts in
place, so the detected peak of `wNormSample` — created by the
peak-detection stage with intensity `100` — has its intensity changed to
`1000000` by a later pipeline stage, refuting full immutability. -/
theorem claim_C9_counterexample :
    wNormSample.detectedPeaks.map (fun p => p.intensity) = [100] ∧
    ((normalization_step [wNormSample] wMedianParams).data.map (fun s =>
        s.detectedPeaks.map (fun p => p.intensity))) = [[1000000]] := by
  exact ⟨by decide, by decide⟩

/-- C9, amended: the alignment, statistics, filtering and identification
stages never mutate a detected peak (alignment stamps the feature id on a
pooled *copy*, and statistics also leaves the aligned peaks untouched);
only the normalization stage rewrites peak intensities in place. -/
theorem claim_C9_amended (lib : NumLib) (avail : Bool)
    (samples : List Sample) (params : Params) :
    (align_peaks_advanced lib avail samples params).data.map
        (fun s => s.detectedPeaks) = samples.map (fun s => s.detectedPeaks) ∧
    (perform_advanced_statistics lib samples params).data.map
        (fun s => s.detectedPeaks) = samples.map (fun s => s.detectedPeaks) ∧
    (perform_advanced_statistics lib samples params).data.map
        (fun s => s.alignedPeaks) = samples.map (fun s => s.alignedPeaks) ∧
    (filtering_step samples params).data.map
        (fun s => s.detectedPeaks) = samples.map (fun s => s.detectedPeaks) ∧
    (identification_step samples).data.map
        (fun s => s.detectedPeaks) = samples.map (fun s => s.detectedPeaks) := by
  refine ⟨?_, ?_, ?_, ?_, ?_⟩
  · unfold align_peaks_advanced
    by_cases h : poolPeaks samples = []
    · rw [if_pos h]
    · rw [if_neg h]
      dsimp only
      rw [List.map_map]
      rfl
  · unfold perform_advanced_statistics
    dsimp only
    rw [List.map_map]
    rfl
  · unfold perform_advanced_statistics
    dsimp only
    rw [List.map_map]
    rfl
  · unfold filtering_step
    dsimp only
    rw [List.map_map]
    rfl
  · unfold identification_step
    dsimp only
    rw [List.map_map]
    rfl

/-- C10: after the statistics step every sample of the returned batch
carries the identical batch-wide corrected result list (independent of
which features the sample contributed to) and the status
`statistics_completed`, for every input batch — also when no feature was
tested. -/
theorem claim_C10 (lib : NumLib) (samples : List Sample) (params : Params) :
    ∀ s ∈ (perform_advanced_statistics lib samples params).data,
      s.statisticalResults =
        apply_corrections (raw_statistical_results lib samples params) ∧
      s.processingStatus = "statistics_completed" := by
  intro s hs
  unfold perform_advanced_statistics at hs
  dsimp only at hs
  obtain ⟨s0, _, rfl⟩ := List.mem_map.mp hs
  exact ⟨rfl, rfl⟩

/-- C10, witness: the singleton batch `[wSampleA]` in which no feature is
tested; the returned sample holds the empty batch result list and the
final status. -/
theorem claim_C10_witness :
    wS10.statisticalResults =
      apply_corrections (raw_statistical_results dummyLib [wSampleA] emptyParams) ∧
    wS10.processingStatus = "statistics_completed" :=
  claim_C10 dummyLib [wSampleA] emptyParams wS10 (by decide)

end MsProc
